import Mathlib

/-!
Verification of the frame codec, relay forwarding path, connection
send-buffer selection and message-id assignment of the tchannel-go
transport, as described by its specification and pinned down by the
test suite (`src/unnamed/part_000`, `src/connection_test.go`,
`src/inbound_test.go`).

The implementation files (frame.go, relay.go, relay_timer_pool.go,
connection.go) are not part of the provided sources; the definitions
below are therefore modelled from the specification text, and each
model is cross-checked against the concrete expectations recorded in
the test files.
-/

namespace TChannelGo

/-! ## Frame codec -/

/-- Wire code of the call-req message type (0x03). -/
def messageTypeCallReq : Nat := 0x03

/-- Wire code of the call-res message type (0x04). -/
def messageTypeCallRes : Nat := 0x04

/-- Wire code of the call-req-continue message type (0x13). -/
def messageTypeCallReqContinue : Nat := 0x13

/-- Wire code of the call-res-continue message type (0x14). -/
def messageTypeCallResContinue : Nat := 0x14

/-- Fixed 16-byte frame header: `size` (u16), message type (u8), id (u32);
reserved bytes are not modelled. Bytes are modelled as `Nat`. -/
structure FrameHeader where
  size : Nat
  messageType : Nat
  ID : Nat
deriving DecidableEq, Repr

/-- A frame: header plus payload bytes. The first payload byte of a call
frame is the flags byte; flag bit 0 is "has more fragments". -/
structure Frame where
  Header : FrameHeader
  Payload : List Nat
deriving DecidableEq, Repr

/-- Modelled from the spec: `finishesCall` of the frame codec (frame.go is
absent from src/; only its test `TestFinishesCallResponses` is given).
Returns true iff the message type is callRes or callResContinue and the
payload's first byte (flags) has bit 0 ("has more fragments") clear. -/
def finishesCall (f : Frame) : Bool :=
  (f.Header.messageType == messageTypeCallRes
      || f.Header.messageType == messageTypeCallResContinue)
    && (f.Payload.headD 0) &&& 1 == 0

/-! ## Relay timer pool (verify mode) -/

/-- The programmer-error signals (panics) raised by the relay timer pool
in verify mode. -/
inductive TimerPanic where
  | useAfterRelease
  | startWhileActive
  | startWhileArmed
  | releaseWithoutStop
deriving DecidableEq, Repr

/-- State of one pooled relay timer: whether it has been released back to
the pool, whether `Start` is pending (no intervening `Stop`), and whether
the underlying timer is armed (which can also happen externally via
`timer.Reset`). -/
structure RelayTimer where
  released : Bool
  active : Bool
  timerArmed : Bool
deriving DecidableEq, Repr

/-- Modelled from the spec: `Get()` of the relay timer pool
(relay_timer_pool.go is absent from src/) returns an unarmed timer. -/
def relayTimerGet : RelayTimer :=
  { released := false, active := false, timerArmed := false }

/-- Modelled from the spec: `Start(d, items, id, isOriginator)` in verify
mode arms the timer; starting a released timer, double-arming, or arming
when the underlying timer is already armed is a programmer error. The
duration `d` (milliseconds) does not affect the state machine. -/
def relayTimerStart (rt : RelayTimer) (_d : Nat) : Except TimerPanic RelayTimer :=
  if rt.released then .error .useAfterRelease
  else if rt.active then .error .startWhileActive
  else if rt.timerArmed then .error .startWhileArmed
  else .ok { rt with active := true, timerArmed := true }

/-- Modelled from the spec: `Stop()` in verify mode disarms the timer;
using a released timer is a programmer error. -/
def relayTimerStop (rt : RelayTimer) : Except TimerPanic RelayTimer :=
  if rt.released then .error .useAfterRelease
  else .ok { rt with active := false, timerArmed := false }

/-- Modelled from the spec: `Release()` in verify mode returns the timer
to the pool; `Stop` must have been called first if the timer was started,
and releasing twice (or using after release) is a programmer error. -/
def relayTimerRelease (rt : RelayTimer) : Except TimerPanic RelayTimer :=
  if rt.released then .error .useAfterRelease
  else if rt.active then .error .releaseWithoutStop
  else .ok { rt with released := true }

/-- Arming the underlying timer directly (`rt.timer.Reset`), bypassing the
pool's bookkeeping, as done in `TestRelayTimerPoolMisuse`. -/
def timerExternalReset (rt : RelayTimer) : RelayTimer :=
  { rt with timerArmed := true }

/-! ## System error codes and caller-visible outcomes -/

/-- The system-error codes visible on the wire (spec section 7). -/
inductive SystemErrCode where
  | timeout
  | cancelled
  | busy
  | declined
  | unexpected
  | badRequest
  | networkError
  | protocolError
  | fatalProtocol
deriving DecidableEq, Repr

/-- The kind name of a system-error code, as used in relay stat keys
(`relay-<kind>`, e.g. `relay-busy` in `TestRelayErrorsOnGetPeer`). -/
def systemErrCodeName : SystemErrCode → String
  | .timeout => "timeout"
  | .cancelled => "cancelled"
  | .busy => "busy"
  | .declined => "declined"
  | .unexpected => "unexpected-error"
  | .badRequest => "bad-request"
  | .networkError => "network-error"
  | .protocolError => "protocol-error"
  | .fatalProtocol => "fatal-protocol-error"

/-- Modelled from the spec: the outcome a caller observes for a call
(connection.go / outbound call path is absent from src/). If an error
reply arrives the caller sees its code; if no response frame ever
arrives, the caller resolves at its own deadline with Timeout, or with
Cancelled if it cancelled first (spec section 7, Blackhole paragraph). -/
def callerOutcome (reply : Option SystemErrCode) (cancelledFirst : Bool) : SystemErrCode :=
  match reply with
  | some c => c
  | none => if cancelledFirst then .cancelled else .timeout

/-! ## Relay forwarder: relay-host Start outcomes -/

/-- The error a relay host's `Start` may return: the rate-limiting drop
sentinel, a system error of some kind, or an unclassified error. `none`
at the call site means no error. -/
inductive GetPeerError where
  | rateLimitDrop
  | system (code : SystemErrCode) (msg : String)
  | unknown (msg : String)
deriving DecidableEq, Repr

/-- What the relay does with an inbound callReq after consulting the
relay host: silently drop the frame, reply with an error frame, or
forward to the chosen peer. -/
inductive RelayStartReply where
  | drop
  | errorFrame (code : SystemErrCode) (msg : String)
  | forward (peer : String)
deriving DecidableEq, Repr

/-- Modelled from the spec: the relay forwarder's handling of the relay
host's `Start` result (relay.go is absent from src/; spec section 4.7
step 1, cross-checked against `TestRelayErrorsOnGetPeer` and
`TestRelayRateLimitDrop`). Returns the reply together with the stat key
recorded for a failed call. -/
def handleRelayStart (peer : String) (err : Option GetPeerError) :
    RelayStartReply × Option String :=
  match err with
  | some .rateLimitDrop => (.drop, some "relay-dropped")
  | some (.system c m) => (.errorFrame c m, some ("relay-" ++ systemErrCodeName c))
  | some (.unknown m) => (.errorFrame .declined m, some "relay-declined")
  | none =>
    if peer = "" then
      (.errorFrame .declined "bad relay host implementation", some "relay-bad-relay-host")
    else
      (.forward peer, none)

/-! ## Blackhole -/

/-- The per-connection state visible to `TestBlackhole`: the number of
inbound exchanges and the number of response frames sent on the
connection. -/
structure InboundConnState where
  inboundExchangeCount : Nat
  responseFramesSent : Nat
deriving DecidableEq, Repr

/-- Modelled from the spec: `Blackhole()` (response path of inbound calls,
absent from src/) abandons the inbound call without sending any response
frame; the call's exchange is cleaned up immediately. -/
def blackhole (s : InboundConnState) : InboundConnState :=
  { s with inboundExchangeCount := s.inboundExchangeCount - 1 }

/-! ## Relay TTL clamping -/

/-- Modelled from the spec: the relay forwards a call with a timer sized
to the call TTL, clamped by `relayMaxTimeout` (relay.go is absent from
src/; spec sections 4.7 step 3 and 6). Times are in milliseconds. -/
def relayClampTTL (ttlMs relayMaxTimeoutMs : Nat) : Nat :=
  min ttlMs relayMaxTimeoutMs

/-- Modelled from the spec: the backend handler observes a deadline equal
to the TTL forwarded by the relay, i.e. the clamped TTL. -/
def backendDeadlineMs (ttlMs relayMaxTimeoutMs : Nat) : Nat :=
  relayClampTTL ttlMs relayMaxTimeoutMs

/-- Modelled from the spec: when the relay timer fires, a local timeout
error frame is injected toward the originator (spec section 4.7 step 6). -/
def relayTimerFireReply : SystemErrCode := SystemErrCode.timeout

/-- Modelled from the spec: the logical time (ms after call start) at
which the relay timer fires when the backend never responds — the
clamped TTL. -/
def relayTimerFireTimeMs (ttlMs relayMaxTimeoutMs : Nat) : Nat :=
  relayClampTTL ttlMs relayMaxTimeoutMs

/-! ## Arg1 size bound -/

/-- The bound on arg1 (the method name): 16 KiB. -/
def maxMethodSize : Nat := 16 * 1024

/-- Maximum payload of a single frame: the 64 KiB frame size bound minus
the 16-byte header. -/
def maxFramePayloadSize : Nat := 65536 - 16

/-- Errors of the call-writing state machine modelled here. -/
inductive CallWriteError where
  | methodTooLarge
deriving DecidableEq, Repr

/-- Modelled from the spec: the call state machine's arg1 writer
(call state machine / fragmenting writer is absent from src/; only
`TestLargeMethod` is given). Arg1 cannot span frames and is bounded at
16 KiB; a larger arg1 produces `ErrMethodTooLarge`. On success it returns
the accepted arg1 length, written entirely inside the first frame. -/
def writeArg1 (arg1Len : Nat) : Except CallWriteError Nat :=
  if arg1Len > maxMethodSize then .error .methodTooLarge else .ok arg1Len

/-! ## Connection message-id assignment -/

/-- Modelled from the spec: the connection's outbound message-id counter
(connection.go's `NextMessageID` is absent from src/). The spec says
outbound ids are assigned monotonically; `TestConnectionIDs`
(src/connection_test.go:899) pins the concrete sequence: each side of a
connection keeps its own counter, the first outbound frame uses id 1 and
each subsequent one increments by 1, regardless of role. Takes the last
assigned id and returns the new counter state paired with the assigned
id. -/
def nextMessageID (lastID : Nat) : Nat × Nat := (lastID + 1, lastID + 1)

/-- The ids assigned to the first `n` outbound messages of one side of a
connection, obtained by iterating `nextMessageID` from the initial
counter 0. -/
def outboundIDs (n : Nat) : List Nat :=
  (List.range n).map fun i => (nextMessageID i).2

/-! ## Send-buffer size selection -/

/-- A send-buffer-size override: a process-name prefix string `pfx` and
the send-queue capacity `size` to use when it matches. -/
structure SendBufferSizeOverride where
  pfx : String
  size : Nat
deriving DecidableEq, Repr

/-- The default send-queue capacity (tchannel's
`DefaultConnectionBufferSize`), which `TestSendBufferSize` expects for
non-matching process names; it coincides with the 512 the test
configures. -/
def DefaultConnectionBufferSize : Nat := 512

/-- Whether an override matches a remote process name: its `pfx` must be
a prefix (not a substring) of the process name. -/
def matchesProcessName (o : SendBufferSizeOverride) (processName : String) : Bool :=
  o.pfx.data.isPrefixOf processName.data

/-- Modelled from the spec: send-queue capacity selection for a new
connection (connection.go is absent from src/; spec section 6 knobs,
cross-checked against `TestSendBufferSize`). The overrides are scanned in
list order and the first entry whose `pfx` is a prefix of the remote
peer's process name wins; otherwise the configured send-buffer size is
used. -/
def sendBufferSizeFor : List SendBufferSizeOverride → String → Nat → Nat
  | [], _, configured => configured
  | o :: rest, p, configured =>
    if matchesProcessName o p then o.size else sendBufferSizeFor rest p configured

/-- The override list configured by `TestSendBufferSize`. -/
def sendBufferTestOverrides : List SendBufferSizeOverride :=
  [{ pfx := "abc", size := 1024 }, { pfx := "abcd", size := 2048 },
   { pfx := "xyz", size := 3072 }]

/-! ## Relay arg2 modification -/

/-- The argument-scheme (`as` transport header) formats relevant to arg2
inspection. -/
inductive Format where
  | thrift
  | json
  | raw
deriving DecidableEq, Repr

/-- One key/value pair of the length-prefixed arg2 header block of a
Thrift call. -/
structure Arg2KV where
  key : String
  val : String
deriving DecidableEq, Repr

/-- Modelled from the spec: the legality check for appending key/value
pairs to arg2 on the relay (relay/arg2 modification code is absent from
src/). Appending is legal only for a Thrift-formatted call whose arg2 is
not fragmented; the error messages are those asserted by
`TestRelayModifyArg2ShouldFail`. Returns `none` when the append is
legal. -/
def arg2AppendError (format : Format) (arg2Fragmented : Bool) : Option String :=
  if arg2Fragmented then
    some "relay-arg2-modify-failed: fragmented arg2"
  else if format ≠ Format.thrift then
    some "relay-arg2-modify-failed: cannot inspect or modify arg2 for non-Thrift calls"
  else
    none

/-- Modelled from the spec: the relay host appends key/value pairs to
arg2 of a forwarded call. When legal, the backend observes the original
arg2 headers together with (the union with) the appended pairs, and arg3
unchanged; otherwise the call fails with a `relay-arg2-modify-failed`
error. -/
def relayAppendArg2 (format : Format) (arg2Fragmented : Bool)
    (hdrs : List Arg2KV) (arg3 : List Nat) (appended : List Arg2KV) :
    Except String (List Arg2KV × List Nat) :=
  match arg2AppendError format arg2Fragmented with
  | some e => .error e
  | none => .ok (hdrs ++ appended, arg3)

/-! ## Connection state after a failed arg2 modification -/

/-- The connection FSM states (spec section 4.5). -/
inductive ConnFSM where
  | waitingForInitReq
  | waitingForInitRes
  | active
  | startClose
  | inboundClosed
  | closed
deriving DecidableEq, Repr

/-- The call-level failures classified by the spec's propagation policy
(section 7). -/
inductive CallFailure where
  | arg2ModifyFailed
  | methodTooLarge
  | handshakeFailure
  | protocolError
  | malformedCallRes
deriving DecidableEq, Repr

/-- Modelled from the spec: which call failures are fatal to the
connection (spec section 7): handshake failure, protocol errors and a
malformed callRes close the connection; errors surfaced to the caller —
among them the arg2-modify failure and method-too-large — do not. -/
def fatalToConnection : CallFailure → Bool
  | .handshakeFailure => true
  | .protocolError => true
  | .malformedCallRes => true
  | .arg2ModifyFailed => false
  | .methodTooLarge => false

/-- Modelled from the spec: processing one relayed call against the
connection FSM when the relay host appends to arg2. A call is served only
in the active state; an illegal arg2 append fails the call with the
`relay-arg2-modify-failed` error, which is not fatal to the connection,
so the FSM state is unchanged; a legal call succeeds. Returns the call's
result and the connection state afterwards. -/
def relayProcessCall (s : ConnFSM) (format : Format) (arg2Fragmented : Bool) :
    Except String Unit × ConnFSM :=
  if s = ConnFSM.active then
    match arg2AppendError format arg2Fragmented with
    | some e => (.error e, if fatalToConnection CallFailure.arg2ModifyFailed then .closed else s)
    | none => (.ok (), s)
  else
    (.error "connection not active", s)

end TChannelGo

namespace TChannelGo

/-! ## Theorems -/

/-- C1: for every frame `f`, `finishesCall f` is true iff `f`'s message
type is callRes (0x04) or callResContinue (0x14) and the first payload
byte (flags) has bit 0 clear; for every callReq frame, regardless of its
flags, `finishesCall` returns false. -/
theorem finishesCall_characterization (f : Frame) :
    (finishesCall f = true ↔
      ((f.Header.messageType = messageTypeCallRes
          ∨ f.Header.messageType = messageTypeCallResContinue)
        ∧ (f.Payload.headD 0) % 2 = 0))
    ∧ (f.Header.messageType = messageTypeCallReq → finishesCall f = false) := by
  constructor
  · simp [finishesCall, Bool.and_eq_true, Bool.or_eq_true, beq_iff_eq,
      Nat.and_one_is_mod]
  · intro h
    simp [finishesCall, h, messageTypeCallReq, messageTypeCallRes,
      messageTypeCallResContinue]

/-- Witness for C1: the theorem applied to a concrete callReq frame with
flags byte 0 (as in `TestFinishesCallResponses`) yields `false`. -/
theorem finishesCall_characterization_witness :
    finishesCall
      { Header := { size := 0xFF34, messageType := messageTypeCallReq, ID := 0xDEADBEEF },
        Payload := [0] } = false :=
  (finishesCall_characterization
    { Header := { size := 0xFF34, messageType := messageTypeCallReq, ID := 0xDEADBEEF },
      Payload := [0] }).2 rfl

/-- The full truth table of `TestFinishesCallResponses`: all fifteen
(message type, flags) rows produce exactly the expected result. -/
theorem finishesCall_testTable :
    ([(messageTypeCallRes, 0x00, true), (messageTypeCallRes, 0x01, false),
      (messageTypeCallRes, 0x02, true), (messageTypeCallRes, 0x03, false),
      (messageTypeCallRes, 0x04, true),
      (messageTypeCallResContinue, 0x00, true), (messageTypeCallResContinue, 0x01, false),
      (messageTypeCallResContinue, 0x02, true), (messageTypeCallResContinue, 0x03, false),
      (messageTypeCallResContinue, 0x04, true),
      (messageTypeCallReq, 0x00, false), (messageTypeCallReq, 0x01, false),
      (messageTypeCallReq, 0x02, false), (messageTypeCallReq, 0x03, false),
      (messageTypeCallReq, 0x04, false)] : List (Nat × Nat × Bool)).all
      (fun row =>
        finishesCall
            { Header := { size := 0xFF34, messageType := row.1, ID := 0xDEADBEEF },
              Payload := [row.2.1] } == row.2.2) = true := by
  decide

/-- C6: each of the four misuses of a verify-mode relay timer — release
without a prior stop, start twice without an intervening stop, start when
the underlying timer was armed externally, and use (stop) after release —
raises the programmer-error panic. -/
theorem relayTimer_misuse_panics :
    ((relayTimerStart relayTimerGet 3600000).bind relayTimerRelease
        = Except.error TimerPanic.releaseWithoutStop)
    ∧ ((relayTimerStart relayTimerGet 3600000).bind (fun rt => relayTimerStart rt 3600000)
        = Except.error TimerPanic.startWhileActive)
    ∧ (relayTimerStart (timerExternalReset relayTimerGet) 3600000
        = Except.error TimerPanic.startWhileArmed)
    ∧ ((relayTimerRelease relayTimerGet).bind relayTimerStop
        = Except.error TimerPanic.useAfterRelease) :=
  ⟨rfl, rfl, rfl, rfl⟩

/-- C2: for every callReq arriving at the relay, the relay host's `Start`
result determines the reply: `RateLimitDropError` silently drops the frame
(and the caller, receiving nothing, times out); a system error of some
kind is replied as an error frame of that kind with stat `relay-<kind>`;
an unknown error is replied as Declined with stat `relay-declined`; an
empty peer with no error is replied as Declined with stat
`relay-bad-relay-host`. -/
theorem relayStart_error_handling (p peer m : String) (c : SystemErrCode) :
    handleRelayStart p (some GetPeerError.rateLimitDrop)
        = (RelayStartReply.drop, some "relay-dropped")
    ∧ callerOutcome none false = SystemErrCode.timeout
    ∧ handleRelayStart p (some (GetPeerError.system c m))
        = (RelayStartReply.errorFrame c m, some ("relay-" ++ systemErrCodeName c))
    ∧ handleRelayStart p (some (GetPeerError.unknown m))
        = (RelayStartReply.errorFrame SystemErrCode.declined m, some "relay-declined")
    ∧ handleRelayStart "" none
        = (RelayStartReply.errorFrame SystemErrCode.declined "bad relay host implementation",
            some "relay-bad-relay-host")
    ∧ (peer ≠ "" → handleRelayStart peer none = (RelayStartReply.forward peer, none)) := by
  refine ⟨rfl, rfl, rfl, rfl, by simp [handleRelayStart], ?_⟩
  intro h
  simp [handleRelayStart, h]

/-- Witness for C2: a nonempty peer with no error is forwarded, and a Busy
system error yields a Busy error frame with stat `relay-busy`, as in
`TestRelayErrorsOnGetPeer`. -/
theorem relayStart_error_handling_witness :
    handleRelayStart "127.0.0.1:4040" none
      = (RelayStartReply.forward "127.0.0.1:4040", none) :=
  (relayStart_error_handling "x" "127.0.0.1:4040" "busy" SystemErrCode.busy).2.2.2.2.2
    (by decide)

/-- C4: the TTL forwarded by the relay is clamped by `relayMaxTimeout`:
the clamped TTL never exceeds either the client TTL or the maximum; with
a client TTL of 60 s (60000 ms) and `relayMaxTimeout` of 1 ms the backend
observes a deadline of at most 1 ms, and when the timer fires the caller
receives a Timeout system error, at a logical time (1 ms) well within the
10 ms bound. -/
theorem relayTTL_clamped (ttlMs maxMs : Nat) :
    relayClampTTL ttlMs maxMs ≤ maxMs
    ∧ relayClampTTL ttlMs maxMs ≤ ttlMs
    ∧ backendDeadlineMs 60000 1 ≤ 1
    ∧ callerOutcome (some relayTimerFireReply) false = SystemErrCode.timeout
    ∧ relayTimerFireTimeMs 60000 1 ≤ 10 :=
  ⟨Nat.min_le_right _ _, Nat.min_le_left _ _, by decide, rfl, by decide⟩

/-- C5: `Blackhole` sends no response frame, the call's inbound exchange
is removed immediately (a single in-flight exchange drops to zero), and
the caller — receiving no response — observes Timeout, or Cancelled if it
cancelled first. -/
theorem blackhole_behavior (s : InboundConnState) (cancelledFirst : Bool) :
    (blackhole s).responseFramesSent = s.responseFramesSent
    ∧ (s.inboundExchangeCount = 1 → (blackhole s).inboundExchangeCount = 0)
    ∧ callerOutcome none cancelledFirst
        = (if cancelledFirst then SystemErrCode.cancelled else SystemErrCode.timeout) := by
  refine ⟨rfl, ?_, rfl⟩
  intro h
  simp [blackhole, h]

/-- Witness for C5: the theorem applied to the state of `TestBlackhole`
(exactly one inbound exchange, nothing sent). -/
theorem blackhole_behavior_witness :
    (blackhole { inboundExchangeCount := 1, responseFramesSent := 0 }).inboundExchangeCount
      = 0 :=
  (blackhole_behavior { inboundExchangeCount := 1, responseFramesSent := 0 } true).2.1 rfl

/-- C7: a call whose arg1 length exceeds 16 KiB fails with
`ErrMethodTooLarge`; an accepted arg1 is at most 16 KiB and, together
with its 2-byte length prefix, fits inside a single frame's payload, so
arg1 never spans frames. -/
theorem arg1_size_bound (n : Nat) :
    (n > maxMethodSize → writeArg1 n = Except.error CallWriteError.methodTooLarge)
    ∧ (∀ k, writeArg1 n = Except.ok k → n ≤ maxMethodSize ∧ n + 2 ≤ maxFramePayloadSize) := by
  constructor
  · intro h
    simp [writeArg1, h]
  · intro k hk
    by_cases h : n > maxMethodSize
    · simp [writeArg1, h] at hk
    · have hn : n ≤ maxMethodSize := Nat.le_of_not_lt h
      refine ⟨hn, ?_⟩
      unfold maxMethodSize at hn
      unfold maxFramePayloadSize
      omega

/-- Witness for C7: the 16 KiB + 1 method name of `TestLargeMethod` is
rejected with `ErrMethodTooLarge`, and a 4-byte method name is accepted. -/
theorem arg1_size_bound_witness :
    writeArg1 (16 * 1024 + 1) = Except.error CallWriteError.methodTooLarge
    ∧ (4 ≤ maxMethodSize ∧ 4 + 2 ≤ maxFramePayloadSize) :=
  ⟨(arg1_size_bound (16 * 1024 + 1)).1 (by decide),
   (arg1_size_bound 4).2 4 rfl⟩

/-- C8 counterexample: on the modelled id assignment — pinned by
`TestConnectionIDs`, which asserts the initiating side's first two
outbound frames carry ids 1 and 2 — two consecutive outbound messages
from the same originator use ids of different parity, so outbound ids are
not split even/odd by role. -/
theorem messageID_parity_counterexample :
    outboundIDs 2 = [1, 2]
    ∧ (outboundIDs 2).getD 0 0 % 2 ≠ (outboundIDs 2).getD 1 0 % 2 := by
  decide

/-- C8 (amended): outbound message ids on each side of a connection are
assigned monotonically (strictly increasing), starting from 1; both the
originator and the responder side start at 1 independently (ids are
disambiguated by direction, not by parity), matching `TestConnectionIDs`:
the initiating side uses 1, 2 and the responding side's first outbound
request also uses 1. -/
theorem messageID_monotonic (n : Nat) :
    List.Pairwise (fun a b => a < b) (outboundIDs n)
    ∧ outboundIDs n = (List.range n).map (fun i => i + 1)
    ∧ outboundIDs 2 = [1, 2]
    ∧ outboundIDs 1 = [1] := by
  refine ⟨?_, rfl, by decide, by decide⟩
  exact (List.pairwise_lt_range n).map _ (fun a b h => Nat.succ_lt_succ h)

/-- C9: the send-queue capacity of a new connection is the size of the
first override (in list order) whose `pfx` is a prefix of the remote
process name — equivalently, the `List.find?` of the override list — and
the configured size otherwise; instantiated on the exact table of
`TestSendBufferSize` (prefix match, not substring: "dabc" does not match
"abc"). -/
theorem sendBufferSize_selection (overrides : List SendBufferSizeOverride)
    (p : String) (configured : Nat) :
    sendBufferSizeFor overrides p configured
        = ((overrides.find? fun o => matchesProcessName o p).map
            SendBufferSizeOverride.size).getD configured
    ∧ sendBufferSizeFor sendBufferTestOverrides "abc" 512 = 1024
    ∧ sendBufferSizeFor sendBufferTestOverrides "abcd" 512 = 1024
    ∧ sendBufferSizeFor sendBufferTestOverrides "bcd" 512 = DefaultConnectionBufferSize
    ∧ sendBufferSizeFor sendBufferTestOverrides "dabc" 512 = DefaultConnectionBufferSize
    ∧ sendBufferSizeFor sendBufferTestOverrides "dabcd" 512 = DefaultConnectionBufferSize
    ∧ sendBufferSizeFor sendBufferTestOverrides "abcde" 512 = 1024
    ∧ sendBufferSizeFor sendBufferTestOverrides "xyzabc" 512 = 3072 := by
  refine ⟨?_, by decide, by decide, by decide, by decide, by decide, by decide, by decide⟩
  induction overrides with
  | nil => rfl
  | cons o rest ih =>
    by_cases h : matchesProcessName o p
    · simp [sendBufferSizeFor, List.find?, h]
    · simp [sendBufferSizeFor, List.find?, h, ih]

/-- C3: when the relay host appends key/value pairs to arg2 of a
Thrift-formatted call whose arg2 is not fragmented, the backend observes
exactly the original arg2 headers followed by the appended pairs, with
arg3 unchanged; for a fragmented arg2 or a non-Thrift format the call
fails with a `relay-arg2-modify-failed` error. -/
theorem relayAppendArg2_correct (format : Format) (arg2Fragmented : Bool)
    (hdrs appended : List Arg2KV) (arg3 : List Nat) :
    (format = Format.thrift → arg2Fragmented = false →
      relayAppendArg2 format arg2Fragmented hdrs arg3 appended
        = Except.ok (hdrs ++ appended, arg3))
    ∧ (arg2Fragmented = true ∨ format ≠ Format.thrift →
      (relayAppendArg2 format arg2Fragmented hdrs arg3 appended
          = Except.error "relay-arg2-modify-failed: fragmented arg2"
        ∨ relayAppendArg2 format arg2Fragmented hdrs arg3 appended
          = Except.error
              "relay-arg2-modify-failed: cannot inspect or modify arg2 for non-Thrift calls")) := by
  constructor
  · intro hf hfr
    subst hf
    subst hfr
    rfl
  · intro h
    cases arg2Fragmented with
    | true => exact Or.inl rfl
    | false =>
      cases format with
      | thrift =>
        rcases h with h | h
        · exact absurd h (by decide)
        · exact absurd rfl h
      | json => exact Or.inr rfl
      | raw => exact Or.inr rfl

/-- Witness for C3: the append of `TestRelayModifyArg2`'s "add small
key/value" case on an unfragmented Thrift call yields the original
headers plus the appended pairs, and the fragmented case of
`TestRelayModifyArg2ShouldFail` fails with the fragmented-arg2 error. -/
theorem relayAppendArg2_correct_witness :
    relayAppendArg2 Format.thrift false
        [{ key := "existingKey", val := "existingValue" }] [7, 7]
        [{ key := "foo", val := "bar" }, { key := "baz", val := "qux" }]
      = Except.ok
          ([{ key := "existingKey", val := "existingValue" },
            { key := "foo", val := "bar" }, { key := "baz", val := "qux" }], [7, 7])
    ∧ (relayAppendArg2 Format.thrift true
          [{ key := "fee", val := "x" }] []
          [{ key := "foo", val := "bar" }]
        = Except.error "relay-arg2-modify-failed: fragmented arg2"
      ∨ relayAppendArg2 Format.thrift true
          [{ key := "fee", val := "x" }] []
          [{ key := "foo", val := "bar" }]
        = Except.error
            "relay-arg2-modify-failed: cannot inspect or modify arg2 for non-Thrift calls") :=
  ⟨(relayAppendArg2_correct Format.thrift false
      [{ key := "existingKey", val := "existingValue" }]
      [{ key := "foo", val := "bar" }, { key := "baz", val := "qux" }] [7, 7]).1 rfl rfl,
   (relayAppendArg2_correct Format.thrift true
      [{ key := "fee", val := "x" }]
      [{ key := "foo", val := "bar" }] []).2 (Or.inl rfl)⟩

/-- C10: after a relayed call fails with `relay-arg2-modify-failed`
(illegal append on a fragmented arg2), the connection is still active,
and a subsequent well-formed Thrift call through the same connection
succeeds; the arg2-modify failure is not fatal to the connection. -/
theorem connection_usable_after_arg2_failure :
    (relayProcessCall ConnFSM.active Format.thrift true).1
        = Except.error "relay-arg2-modify-failed: fragmented arg2"
    ∧ (relayProcessCall ConnFSM.active Format.thrift true).2 = ConnFSM.active
    ∧ (relayProcessCall (relayProcessCall ConnFSM.active Format.thrift true).2
          Format.thrift false).1 = Except.ok ()
    ∧ fatalToConnection CallFailure.arg2ModifyFailed = false :=
  ⟨rfl, rfl, rfl, rfl⟩

end TChannelGo
